import Mathlib

/-!
# Faceit-CS2-Stats-Bot: verification of the scraping + rendering pipeline

A shallow embedding, in Lean 4, of the core of the repository
(`src/utils.py`, `src/faceitcs2stats_bot.py`): the HTML stats extractor,
the stat-table / player-card renderer, the page fetcher, and the SQLite
persistence adapter.  Pure data flow is embedded as Lean functions; the
side-effecting boundary (HTTP, the image loader, the SQLite connection,
the Telegram message handlers) is passed in explicitly as oracle
parameters, so every path of the Python control flow is a case of a total
Lean function.  Python exceptions are embedded as `Except PyErr`.

Machine-specific aspects deliberately abstracted (each noted where used):
pixel contents of decoded images, font metrics, and the binary `float`
representation (numeric strings are read as exact rationals).
-/

deriving instance DecidableEq for Except

namespace FaceitBot

/-- A Python exception that an embedded function can raise.
`renderFailure` is the generic `Exception(f"Ошибка при генерации
карточки: {e}")` re-raised by `generate_player_card` (utils.py:244-246),
wrapping the inner error.  `typeError` is what CPython raises when the
operand of `raise` is not an exception class/instance ("exceptions must
derive from BaseException"). -/
inductive PyErr : Type
  | keyError (key : String)
  | valueError
  | typeError
  | renderFailure (inner : PyErr)
  deriving DecidableEq, Repr

/-- One secondary metric of a stat block: a `{'title': ..., 'value': ...}`
dict built in `parse_view_stats_div` (utils.py:294-297). -/
structure StatItem where
  title : String
  value : String
  deriving DecidableEq, Repr

/-- The `block_data` dict built per `stats_totals_block_wrapper` block
(utils.py:270-300).  `title` / `main_value` are `Option`s because the
source only sets those keys when the corresponding span is found; reading
an absent key raises `KeyError` (embedded by `getKey`). -/
structure StatBlock where
  title : Option String
  main_value : Option String
  items : List StatItem
  deriving DecidableEq, Repr

/-- `d[k]` on a Python dict whose key `k` may be absent. -/
def getKey {α : Type} (v : Option α) (k : String) : Except PyErr α :=
  match v with
  | some a => Except.ok a
  | none => Except.error (PyErr.keyError k)

/-- Python `str.strip()` — also the `strip=True` of
`get_text(strip=True)`: leading and trailing whitespace removed.
(Structural recursion over the character list, so that concrete pages
evaluate inside the kernel.) -/
def pyStrip (s : String) : String :=
  ⟨((s.data.dropWhile Char.isWhitespace).reverse.dropWhile
      Char.isWhitespace).reverse⟩

/-- Digit string to natural number, most significant first. -/
def digitsVal (cs : List Char) : ℕ :=
  cs.foldl (fun a c => 10 * a + (c.toNat - 48)) 0

/-- Python `float()` on a plain decimal literal `[+-]?ddd[.ddd]`, read as
an exact rational; anything else is `none` (a `ValueError`).  This models
the numeric strings the site serves (e.g. "49", "0.99").  Exotic `float`
syntax (exponents, `inf`/`nan`, surrounding whitespace) and binary
rounding of the IEEE double are outside the model: on the short decimal
strings compared against the thresholds 1 and 50 the rational value and
the double agree on every comparison used. -/
def pyFloat (s : String) : Option ℚ :=
  let cs := s.toList
  let neg : Bool := cs.head? = some '-'
  let body : List Char :=
    match cs with
    | '-' :: rest => rest
    | '+' :: rest => rest
    | _ => cs
  let signed : ℚ → ℚ := fun q => if neg then -q else q
  match body.splitOn '.' with
  | [ip] =>
      if !ip.isEmpty && ip.all Char.isDigit then
        some (signed (digitsVal ip))
      else none
  | [ip, fp] =>
      if !(ip.isEmpty && fp.isEmpty) && (ip ++ fp).all Char.isDigit then
        some (signed ((digitsVal ip : ℚ) + (digitsVal fp : ℚ) / (10 : ℚ) ^ fp.length))
      else none
  | _ => none

/-- `float(s)`, raising `ValueError` on a malformed string. -/
def pyFloatE (s : String) : Except PyErr ℚ :=
  match pyFloat s with
  | some q => Except.ok q
  | none => Except.error PyErr.valueError

/-- The warning tint `(230, 118, 118)` of utils.py:118. -/
def warningTint : ℕ × ℕ × ℕ := (230, 118, 118)

/-- The positive tint `(214, 243, 148)` of utils.py:120. -/
def positiveTint : ℕ × ℕ × ℕ := (214, 243, 148)

/-- One drawing call of `draw_stat_table`, in emission order.  Geometry
(the x/y arithmetic on the fixed 350×180 table) and font metrics are
abstracted away: no claim mentions them, and they carry no data beyond
the payloads kept here. -/
inductive TableOp : Type
  | background
  | titleText (s : String)
  | mainValue (s : String) (fill : ℕ × ℕ × ℕ)
  | divider
  | itemRow (title value : String)
  deriving DecidableEq, Repr

/-- `True` exactly on the per-item rows drawn by the loop of
utils.py:134-139. -/
def TableOp.isItemRow : TableOp → Bool
  | .itemRow _ _ => true
  | _ => false

/-- Embeds a Python conjunction `cond and float(d['main_value']) < bound`
(utils.py:108-115): the right operand — the `KeyError` of a missing
`main_value` and the `ValueError` of `float` — is only reached when
`cond` already holds (`and` short-circuits). -/
def pyAndFloatLt (cond : Bool) (mv : Option String) (bound : ℚ) :
    Except PyErr Bool :=
  if cond then
    match mv with
    | none => Except.error (PyErr.keyError "main_value")
    | some s =>
      match pyFloat s with
      | none => Except.error PyErr.valueError
      | some q => Except.ok (decide (q < bound))
  else Except.ok false

/-- `draw_stat_table` (utils.py:85-139) as the sequence of drawing calls
it makes: background rectangle (98), centered title (102-105), the two
short-circuit threshold booleans (108-115), the tinted main value
(117-127), the divider line (130), then one row per entry of
`stat_data['items']` (134-139).  Dict accesses and `float` follow Python
semantics via `getKey` / `pyAndFloatLt`. -/
def draw_stat_table (b : StatBlock) : Except PyErr (List TableOp) :=
  match b.title with
  | none => Except.error (PyErr.keyError "title")
  | some t =>
    match pyAndFloatLt (t == "Avg. KDR" || t == "FA Rating") b.main_value 1 with
    | Except.error e => Except.error e
    | Except.ok low1 =>
      match pyAndFloatLt (t == "Winrate") b.main_value 50 with
      | Except.error e => Except.error e
      | Except.ok low2 =>
        let fill := if low1 || low2 then warningTint else positiveTint
        match b.main_value with
        | none => Except.error (PyErr.keyError "main_value")
        | some mv =>
          Except.ok
            ([TableOp.background, TableOp.titleText t,
              TableOp.mainValue mv fill, TableOp.divider] ++
             b.items.map fun it => TableOp.itemRow it.title it.value)

/-- What `parse_view_stats_div` finds inside one
`stats_totals_block_wrapper` element (utils.py:268-291): the stripped-text
candidates of the title span and the main-value span (absent when
`block.find` returns `None`), and the texts of the item-title /
item-value span lists in document order. -/
structure BlockDiv where
  titleSpan : Option String
  mainValueSpan : Option String
  itemTitles : List String
  itemValues : List String
  deriving DecidableEq, Repr

/-- A `view1_stats` / `view2_stats` container: its
`stats_totals_block_wrapper` descendants in document order. -/
structure ViewDiv where
  blocks : List BlockDiv
  deriving DecidableEq, Repr

/-- What BeautifulSoup's queries in `parse_faceitanalyser`
(utils.py:306-341) can find on a page.  Each field is the result of one
fixed class/id query: `none` when the element is missing.
`avatarSrc` / each entry of `levelImageSrcs` carry the `src` attribute of
the found `img` (`none` when the attribute is absent).  Element texts are
kept raw; the embedding applies `get_text(strip=True)` as `pyStrip`
where the source calls it. -/
structure Page where
  avatarSrc : Option (Option String)
  levelImageSrcs : List (Option String)
  nameSpan : Option String
  eloSpan : Option String
  view1 : Option ViewDiv
  view2 : Option ViewDiv
  deriving DecidableEq, Repr

/-- The record `parse_faceitanalyser` returns on success: the `data`
dict.  `name`, `elo`, `view1_stats`, `view2_stats` are always set on the
success path; the three image keys are set only when found (reading an
absent one later raises `KeyError`). -/
structure PlayerStats where
  avatar_url : Option String
  flag_url : Option String
  level_url : Option String
  name : String
  elo : String
  view1_stats : List StatBlock
  view2_stats : List StatBlock
  deriving DecidableEq, Repr

/-- `parse_view_stats_div` on one block (utils.py:270-300): title and
main value are set when their span is found; the item pairs are
`zip(item_titles, item_spans)` — positional pairing, truncating to the
shorter list. -/
def parse_block (bd : BlockDiv) : StatBlock where
  title := bd.titleSpan.map pyStrip
  main_value := bd.mainValueSpan.map pyStrip
  items := (bd.itemTitles.zip bd.itemValues).map fun p => ⟨pyStrip p.1, pyStrip p.2⟩

/-- `parse_view_stats_div` (utils.py:259-303): one `StatBlock` per
wrapper block, in document order. -/
def parse_view_stats_div (d : ViewDiv) : List StatBlock :=
  d.blocks.map parse_block

/-- Python truthiness of `elem.get('src')` guarded by `elem and ...`:
the attribute must be present and a non-empty string. -/
def srcTruthy : Option String → Option String
  | none => none
  | some s => if s = "" then none else some s

/-- The `src` used by iteration `i` of the loop over
`level_images[:2]` (utils.py:318-324): the i-th of the first two
`stats_profile_level_image` elements, when it has a truthy `src`. -/
def levelSlot (srcs : List (Option String)) (i : ℕ) : Option String :=
  match (srcs.take 2)[i]? with
  | none => none
  | some o => srcTruthy o

/-- The site's base origin, prepended at utils.py:322 and 324.  The
source prepends it unconditionally, with no relative-URL check. -/
def faceitBase : String := "https://faceitanalyser.com/"

/-- `parse_faceitanalyser` (utils.py:306-343).  The source fills the
avatar / flag / level keys first (310-324), then returns `None` as soon
as the name span, the elo span, `view1_stats` or `view2_stats` is
missing (327-341); the nested matches here follow that check order
(name, elo, view1, view2), and the record built in the innermost case is
the dict as of the final `return data`.  The Lean function is total: the
source raises nothing on this path — every lookup is guarded. -/
def parse_faceitanalyser (p : Page) : Option PlayerStats :=
  match p.nameSpan with
  | none => none
  | some ns =>
    match p.eloSpan with
    | none => none
    | some es =>
      match p.view1 with
      | none => none
      | some v1 =>
        match p.view2 with
        | none => none
        | some v2 =>
          some
            { avatar_url := srcTruthy (p.avatarSrc.getD none)
              flag_url := (levelSlot p.levelImageSrcs 0).map (faceitBase ++ ·)
              level_url := (levelSlot p.levelImageSrcs 1).map (faceitBase ++ ·)
              name := pyStrip ns
              elo := pyStrip es
              view1_stats := parse_view_stats_div v1
              view2_stats := parse_view_stats_div v2 }

/-- An abstract handle for a decoded, resized RGBA image returned by
`load_image_safe`: pixel contents are outside the model. -/
abbrev Img := ℕ

/-- What a paste in `generate_player_card` composites: an image that
`load_image_safe` produced, or the `create_placeholder` fill used in the
matching `except ImageLoadError` branch. -/
inductive PasteSrc : Type
  | loaded (img : Img)
  | placeholder (color : ℕ × ℕ × ℕ × ℕ)
  deriving DecidableEq, Repr

/-- One compositing / drawing call of `generate_player_card`, with the
source's fixed coordinates.  `paste x y w h src` pastes at `(x, y)` with
the given extent; `tableAt x y ops` is one `draw_stat_table` call at
`(x, y)`.  Fonts and text metrics are abstracted, as in `TableOp`. -/
inductive CardOp : Type
  | paste (x y w h : ℕ) (src : PasteSrc)
  | text (x y : ℕ) (s : String)
  | line (x1 y1 x2 y2 : ℕ)
  | tableAt (x y : ℕ) (ops : List TableOp)
  deriving DecidableEq, Repr

/-- The composed canvas: `Image.new('RGB', (1600, 820), ...)` of
utils.py:153-154 plus everything drawn onto it. -/
structure Card where
  width : ℕ
  height : ℕ
  ops : List CardOp
  deriving DecidableEq, Repr

/-- The row of stat tables of one section (utils.py:224-228 and
237-241): table `i` is drawn at `x = 50 + i * (350 + 30)`; an error
raised by `draw_stat_table` aborts the loop and propagates. -/
def renderTablesFrom (y i : ℕ) : List StatBlock → Except PyErr (List CardOp)
  | [] => Except.ok []
  | b :: rest =>
    match draw_stat_table b with
    | Except.error e => Except.error e
    | Except.ok tops =>
      match renderTablesFrom y (i + 1) rest with
      | Except.error e => Except.error e
      | Except.ok more => Except.ok (CardOp.tableAt (50 + i * 380) y tops :: more)

/-- The avatar `try/except` block (utils.py:170-179): the loaded 150×150
image — or, when `load_image_safe` raised `ImageLoadError`, the gray
`create_placeholder((150, 150), (100, 100, 100, 255))` — pasted at
`(50, 50)`. -/
def avatarOp (loader : String → Option Img) (au : String) : CardOp :=
  match loader au with
  | some img => CardOp.paste 50 50 150 150 (PasteSrc.loaded img)
  | none => CardOp.paste 50 50 150 150 (PasteSrc.placeholder (100, 100, 100, 255))

/-- The flag `try/except` block (utils.py:182-187): the loaded 60×45
image — or the red-tinted `(200, 100, 100, 255)` placeholder — pasted at
`(220, 55)`. -/
def flagOp (loader : String → Option Img) (fu : String) : CardOp :=
  match loader fu with
  | some img => CardOp.paste 220 55 60 45 (PasteSrc.loaded img)
  | none => CardOp.paste 220 55 60 45 (PasteSrc.placeholder (200, 100, 100, 255))

/-- The level `try/except` block (utils.py:190-195): the loaded 70×70
image — or the green-tinted `(100, 200, 100, 255)` placeholder, created
45×45 at line 194 — pasted at `(220, 110)`. -/
def levelOp (loader : String → Option Img) (lu : String) : CardOp :=
  match loader lu with
  | some img => CardOp.paste 220 110 70 70 (PasteSrc.loaded img)
  | none => CardOp.paste 220 110 45 45 (PasteSrc.placeholder (100, 200, 100, 255))

/-- The body of `generate_player_card`'s `try:` block (utils.py:157-242)
over an abstract image loader: `loader url = none` means
`load_image_safe url` raised `ImageLoadError` (every failure inside it —
HTTP, decode, SVG conversion — is re-raised as `ImageLoadError`,
utils.py:36-77).  Each of the three loads reads its URL with a plain
dict access — `data['avatar_url']` etc. (171, 183, 191) — so an absent
key raises `KeyError` *before* the per-image `try:`, and only
`ImageLoadError` is caught and replaced by the placeholder paste (the
`avatarOp` / `flagOp` / `levelOp` blocks above).  Font loading (162-167)
and the circular avatar mask (172-175) carry no claim-relevant data and
are abstracted. -/
def cardBody (loader : String → Option Img) (d : PlayerStats) :
    Except PyErr (List CardOp) :=
  match d.avatar_url with
  | none => Except.error (PyErr.keyError "avatar_url")
  | some au =>
    match d.flag_url with
    | none => Except.error (PyErr.keyError "flag_url")
    | some fu =>
      match d.level_url with
      | none => Except.error (PyErr.keyError "level_url")
      | some lu =>
        match renderTablesFrom 315 0 d.view1_stats with
        | Except.error e => Except.error e
        | Except.ok tables1 =>
          match renderTablesFrom 590 0 d.view2_stats with
          | Except.error e => Except.error e
          | Except.ok tables2 =>
            Except.ok
              ([avatarOp loader au, flagOp loader fu, levelOp loader lu,
                CardOp.text 295 55 d.name, CardOp.text 295 120 d.elo,
                CardOp.line 40 230 1560 230,
                CardOp.text 50 260 "Статистика за всё время"] ++
               tables1 ++
               [CardOp.text 50 535 "Статистика за последние 50 матчей"] ++
               tables2)

/-- `generate_player_card` (utils.py:142-246): the 1600×820 canvas with
the ops of the `try:` body, or — when anything in the body raised — the
generic `Exception` re-raised at 244-246, wrapping the inner error. -/
def generate_player_card (loader : String → Option Img) (d : PlayerStats) :
    Except PyErr Card :=
  match cardBody loader d with
  | Except.ok ops => Except.ok { width := 1600, height := 820, ops := ops }
  | Except.error e => Except.error (PyErr.renderFailure e)

/-- The outcome of the single `requests.get(url, timeout=30)` +
`raise_for_status()` of `download_page` (utils.py:252-253): the response
text on a success status, or `failure` when the request raises a
`requests.RequestException` — connection error, timeout, or the
`HTTPError` of a non-success status. -/
inductive HttpAttempt : Type
  | success (text : String)
  | failure
  deriving DecidableEq, Repr

/-- `download_page` (utils.py:249-256) over an oracle giving the outcome
of the n-th HTTP attempt the call would make.  The result pairs the
call's outcome with the number of attempts made: the source consults
only attempt 0 — there is no retry loop.  On the failure path the source
executes `raise (f"Ошибка при загрузке страницы {url}: {e}")`: the
operand of `raise` is a `str`, not a `BaseException`, so CPython raises
`TypeError("exceptions must derive from BaseException")` — the f-string
message is lost, and no `FetchError` class exists anywhere in the
repository. -/
def download_page (http : ℕ → HttpAttempt) : Except PyErr String × ℕ :=
  match http 0 with
  | HttpAttempt.success t => (Except.ok t, 1)
  | HttpAttempt.failure => (Except.error PyErr.typeError, 1)

/-- One row of the `users` table (init_db.py:29-33): `telegram_id`
INTEGER PRIMARY KEY, `faceit_nickname` TEXT NOT NULL, `registered_at`
TIMESTAMP DEFAULT CURRENT_TIMESTAMP.  Timestamps are abstract ticks. -/
structure Row where
  telegram_id : ℤ
  faceit_nickname : String
  registered_at : ℕ
  deriving DecidableEq, Repr

/-- The `users` table in row order. -/
abbrev Db := List Row

/-- `SELECT ... FROM users WHERE telegram_id = ?` followed by
`fetchone()`: the first matching row, if any. -/
def selectByTid (db : Db) (tid : ℤ) : Option Row :=
  db.find? fun r => r.telegram_id == tid

/-- The `UPDATE users SET faceit_nickname = ?, registered_at =
CURRENT_TIMESTAMP WHERE telegram_id = ?` of
faceitcs2stats_bot.py:102-107: rewrites every matching row. -/
def updateRows (db : Db) (tid : ℤ) (nick : String) (now : ℕ) : Db :=
  db.map fun r =>
    if r.telegram_id = tid then
      { r with faceit_nickname := nick, registered_at := now }
    else r

/-- `register_user` (faceitcs2stats_bot.py:76-129).  `resolve` is the
`get_user_stat` boundary (page fetch + extraction): `.error e` when the
fetch raised (the exception propagates out of `register_user`, which
only enters its `try:` after the resolution check), `.ok none` when the
nickname did not resolve to a `PlayerStats` record, `.ok (some stats)`
on success.  `now` is `CURRENT_TIMESTAMP` at this call.  On `.ok none`
the function returns `None` before any database access (83-85);
otherwise it selects by primary key (93-98) and updates or inserts
accordingly, committing at 121.  The sqlite-error path (124-126, caught,
returns `None` with the uncommitted work rolled back on close) concerns
an unhealthy store and is modelled for the read side in
`get_faceit_nickname_from_db`; here the store is reachable, which is
what the registration claims quantify over. -/
def register_user (resolve : String → Except PyErr (Option PlayerStats))
    (now : ℕ) (db : Db) (tid : ℤ) (nick : String) :
    Except PyErr (Option PlayerStats) × Db :=
  match resolve nick with
  | Except.error e => (Except.error e, db)
  | Except.ok none => (Except.ok none, db)
  | Except.ok (some stats) =>
    match selectByTid db tid with
    | some _ => (Except.ok (some stats), updateRows db tid nick now)
    | none =>
      (Except.ok (some stats),
       db ++ [{ telegram_id := tid, faceit_nickname := nick, registered_at := now }])

/-- The state of the SQLite store, as one call observes it:
`unreachable` makes `sqlite3.connect` raise `sqlite3.Error`; `failing`
connects but raises `sqlite3.Error` on `execute`/`fetchone`; `ready db`
behaves, serving the rows of `db`. -/
inductive Store : Type
  | unreachable
  | failing
  | ready (db : Db)
  deriving DecidableEq, Repr

/-- The observable outcome of one embedded Python call: what escapes it
(`.error e` = an uncaught exception), and how many connections it opened
and closed. -/
structure PyCall (α : Type) where
  returns : Except PyErr α
  opened : ℕ
  closed : ℕ

/-- `get_faceit_nickname_from_db` (faceitcs2stats_bot.py:45-73), branch
by branch.  `unreachable`: `connect` raises inside the `try:`, the
`except sqlite3.Error` returns `None`, and in the `finally:` `conn` is
still `None` so nothing is closed (nothing was opened).  `failing`: the
connection opens, `execute` raises, the handler returns `None`, and the
`finally:` closes the open connection.  `ready db`: `fetchone` gives the
first row with the key, `result[0]` its nickname, else `None`; the
`finally:` closes.  `sqlite3.Error` is the only exception the body can
raise, so every path returns. -/
def get_faceit_nickname_from_db (store : Store) (tid : ℤ) :
    PyCall (Option String) :=
  match store with
  | Store.unreachable => { returns := Except.ok none, opened := 0, closed := 0 }
  | Store.failing => { returns := Except.ok none, opened := 1, closed := 1 }
  | Store.ready db =>
    { returns := Except.ok ((selectByTid db tid).map Row.faceit_nickname)
      opened := 1, closed := 1 }

/-- The process-wide `user_registration_data` dict
(faceitcs2stats_bot.py:32): per user id, the stored
`'waiting_for_login'` flag (`none` = the id is not a key). -/
abbrev RegMap := ℤ → Option Bool

/-- `start_registration` (faceitcs2stats_bot.py:168-178):
`user_registration_data[user_id] = {'waiting_for_login': True}`. -/
def start_registration (m : RegMap) (uid : ℤ) : RegMap :=
  fun u => if u = uid then some true else m u

/-- The guard of `handle_registration_input`'s message handler
(faceitcs2stats_bot.py:181-185): the user is a key of the map and their
`waiting_for_login` flag is truthy (`dict.get` gives `None`, falsy, when
the key holds no flag — here the flag is always stored, so `Option.getD
false` over the stored flag). -/
def awaiting_login (m : RegMap) (uid : ℤ) : Bool :=
  (m uid).getD false

/-- `handle_registration_input` (faceitcs2stats_bot.py:186-207): trims
the message text into a nickname and calls `register_user`.  An
exception from `register_user` propagates (map untouched).  On `None`
the handler replies and returns with the map untouched (194-200); on
success it sets `user_registration_data[user_id] =
{'waiting_for_login': False}` (202) — it never deletes the entry — and
then renders and sends the card (203-207), which this embedding stops
short of (the map and table are already in their final state there). -/
def handle_registration_input
    (resolve : String → Except PyErr (Option PlayerStats)) (now : ℕ)
    (db : Db) (m : RegMap) (uid : ℤ) (text : String) :
    Except PyErr (RegMap × Db) :=
  let nickname := pyStrip text
  match register_user resolve now db uid nickname with
  | (Except.error e, _) => Except.error e
  | (Except.ok none, db2) => Except.ok (m, db2)
  | (Except.ok (some _), db2) =>
    Except.ok (fun u => if u = uid then some false else m u, db2)

/-! ## Helper definitions and lemmas for the theorems -/

/-- A page is well-formed when both mandatory spans are present with
non-empty stripped text and both view containers are present. -/
def wellFormedPage (p : Page) : Prop :=
  (∃ ns, p.nameSpan = some ns ∧ pyStrip ns ≠ "") ∧
  (∃ es, p.eloSpan = some es ∧ pyStrip es ≠ "") ∧
  p.view1.isSome ∧ p.view2.isSome

/-- `draw_stat_table` succeeds on the block. -/
def rendersOk (b : StatBlock) : Prop :=
  ∃ ops, draw_stat_table b = Except.ok ops

theorem pyAndFloatLt_some (c : Bool) (mv : String) (bound q : ℚ)
    (h : pyFloat mv = some q) :
    pyAndFloatLt c (some mv) bound = Except.ok (c && decide (q < bound)) := by
  cases c <;> simp [pyAndFloatLt, h]

/-- The tint decision of `draw_stat_table`, for a block whose main value
parses as the rational `q`. -/
theorem tint_rule_general (t mv : String) (items : List StatItem) (q : ℚ)
    (h : pyFloat mv = some q) :
    draw_stat_table { title := some t, main_value := some mv, items := items } =
      Except.ok
        ([TableOp.background, TableOp.titleText t,
          TableOp.mainValue mv
            (if ((t = "Avg. KDR" ∨ t = "FA Rating") ∧ q < 1) ∨
                (t = "Winrate" ∧ q < 50)
             then warningTint else positiveTint),
          TableOp.divider] ++ items.map fun it => TableOp.itemRow it.title it.value) := by
  simp only [draw_stat_table, pyAndFloatLt_some _ _ _ _ h]
  congr 1
  congr 2
  by_cases h1 : t = "Avg. KDR" <;> by_cases h2 : t = "FA Rating" <;>
    by_cases h3 : t = "Winrate" <;> by_cases hq1 : q < 1 <;> by_cases hq2 : q < 50 <;>
    simp [h1, h2, h3, hq1, hq2]

/-- Whenever `draw_stat_table` succeeds, its output is the four header
ops followed by exactly one row per item. -/
theorem draw_ok_shape (b : StatBlock) (ops : List TableOp)
    (h : draw_stat_table b = Except.ok ops) :
    ∃ t mv fill,
      ops = [TableOp.background, TableOp.titleText t,
             TableOp.mainValue mv fill, TableOp.divider] ++
            b.items.map fun it => TableOp.itemRow it.title it.value := by
  unfold draw_stat_table at h
  split at h
  · exact absurd h (by simp)
  · split at h
    · exact absurd h (by simp)
    · split at h
      · exact absurd h (by simp)
      · split at h <;> cases hmv : b.main_value <;> rw [hmv] at h <;> simp at h <;>
          exact ⟨_, _, _, h.symm⟩

theorem renderTablesFrom_ok (y : ℕ) (l : List StatBlock)
    (h : ∀ b ∈ l, rendersOk b) :
    ∀ i, ∃ ops, renderTablesFrom y i l = Except.ok ops := by
  induction l with
  | nil => intro i; exact ⟨[], rfl⟩
  | cons b rest ih =>
    intro i
    obtain ⟨tops, htops⟩ := h b (List.mem_cons_self b rest)
    obtain ⟨more, hmore⟩ := ih (fun b2 hb2 => h b2 (List.mem_cons_of_mem _ hb2)) (i + 1)
    exact ⟨CardOp.tableAt (50 + i * 380) y tops :: more,
      by simp [renderTablesFrom, htops, hmore]⟩

/-- `UPDATE ... WHERE telegram_id = ?` does not change how many rows
carry that key. -/
theorem updateRows_countP (db : Db) (tid : ℤ) (nick : String) (now : ℕ) :
    (updateRows db tid nick now).countP (fun r => r.telegram_id == tid) =
      db.countP (fun r => r.telegram_id == tid) := by
  unfold updateRows
  rw [List.countP_map]
  congr 1
  funext r
  by_cases h : r.telegram_id = tid <;> simp [h]

/-- After an `UPDATE`, every row carrying the key holds the new nickname
and timestamp. -/
theorem updateRows_latest (db : Db) (tid : ℤ) (nick : String) (now : ℕ) :
    ∀ r ∈ updateRows db tid nick now, r.telegram_id = tid →
      r.faceit_nickname = nick ∧ r.registered_at = now := by
  intro r hr htid
  obtain ⟨r0, hr0, rfl⟩ := List.mem_map.mp hr
  by_cases h : r0.telegram_id = tid
  · simp [h]
  · simp only [if_neg h] at htid
    exact absurd htid h

/-- A successful registration leaves exactly one row for the user id,
whether it inserted or updated. -/
theorem register_user_countP (resolve : String → Except PyErr (Option PlayerStats))
    (now : ℕ) (db : Db) (tid : ℤ) (nick : String) (s : PlayerStats)
    (h : resolve nick = Except.ok (some s))
    (hpk : db.countP (fun r => r.telegram_id == tid) ≤ 1) :
    ((register_user resolve now db tid nick).2).countP
      (fun r => r.telegram_id == tid) = 1 := by
  unfold register_user
  rw [h]
  cases hf : selectByTid db tid with
  | none =>
    have hz : db.countP (fun r => r.telegram_id == tid) = 0 :=
      List.countP_eq_zero.mpr (List.find?_eq_none.mp hf)
    simp [List.countP_append, hz, List.countP_cons]
  | some r =>
    have hf2 : List.find? (fun r => r.telegram_id == tid) db = some r := hf
    have hp := List.find?_some hf2
    have hpos : 0 < db.countP (fun r => r.telegram_id == tid) :=
      List.countP_pos_iff.mpr ⟨r, List.mem_of_find?_eq_some hf2, hp⟩
    simp only [updateRows_countP]
    omega

/-- After a successful registration, every row for the user id holds the
nickname and timestamp of that call. -/
theorem register_user_latest (resolve : String → Except PyErr (Option PlayerStats))
    (now : ℕ) (db : Db) (tid : ℤ) (nick : String) (s : PlayerStats)
    (h : resolve nick = Except.ok (some s)) :
    ∀ r ∈ (register_user resolve now db tid nick).2, r.telegram_id = tid →
      r.faceit_nickname = nick ∧ r.registered_at = now := by
  unfold register_user
  rw [h]
  cases hf : selectByTid db tid with
  | none =>
    intro r hr htid
    rcases List.mem_append.mp hr with hin | hin
    · have := List.find?_eq_none.mp hf r hin
      simp [htid] at this
    · rcases List.mem_singleton.mp hin with rfl
      exact ⟨rfl, rfl⟩
  | some r0 => exact updateRows_latest db tid nick now

/-! ### Concrete inputs used by the witnesses and counterexamples -/

/-- A page with both mandatory spans and both (empty) view containers. -/
def goodPage : Page :=
  { avatarSrc := none
    levelImageSrcs := []
    nameSpan := some "Nick"
    eloSpan := some " 2001 "
    view1 := some ⟨[]⟩
    view2 := some ⟨[]⟩ }

/-- The record `goodPage` extracts to. -/
def goodStats : PlayerStats :=
  { avatar_url := none
    flag_url := none
    level_url := none
    name := "Nick"
    elo := "2001"
    view1_stats := []
    view2_stats := [] }

/-- A well-formed page whose first level image carries an already
absolute `src`. -/
def pageAbs : Page :=
  { avatarSrc := none
    levelImageSrcs := [some "https://cdn.example.com/fl.svg", some "lvl.png"]
    nameSpan := some "Player"
    eloSpan := some "2001"
    view1 := some ⟨[]⟩
    view2 := some ⟨[]⟩ }

/-- The record `pageAbs` extracts to: the base origin is prepended even
to the absolute URL. -/
def psAbs : PlayerStats :=
  { avatar_url := none
    flag_url := some "https://faceitanalyser.com/https://cdn.example.com/fl.svg"
    level_url := some "https://faceitanalyser.com/lvl.png"
    name := "Player"
    elo := "2001"
    view1_stats := []
    view2_stats := [] }

/-- A fully populated `PlayerStats` with all three image URL keys. -/
def cardData : PlayerStats :=
  { avatar_url := some "a", flag_url := some "f", level_url := some "l",
    name := "p", elo := "e", view1_stats := [], view2_stats := [] }

/-- A `PlayerStats` whose optional `avatar_url` key is absent. -/
def cardDataNoAvatar : PlayerStats :=
  { avatar_url := none, flag_url := some "f", level_url := some "l",
    name := "p", elo := "e", view1_stats := [], view2_stats := [] }

/-- A resolvable player record. -/
def statsEx : PlayerStats :=
  { avatar_url := none, flag_url := none, level_url := none,
    name := "p", elo := "1000", view1_stats := [], view2_stats := [] }

/-- A resolver on which only the nickname "ghost" fails to resolve. -/
def resolveEx : String → Except PyErr (Option PlayerStats) :=
  fun n => if n = "ghost" then Except.ok none else Except.ok (some statsEx)

/-- A registration map holding user 7 in the waiting state. -/
def mWait : RegMap := fun u => if u = 7 then some true else none

/-- A block element with three item titles but only two item values. -/
def bdEx : BlockDiv :=
  { titleSpan := some "Winrate", mainValueSpan := some "55",
    itemTitles := ["Wins", "Losses", "Streak"], itemValues := ["10", "9"] }

/-! ## The claims -/

/-- Claim C1: extraction is all-or-nothing and never raises — for every
page missing the profile-name span, the ELO span, the `view1_stats`
container or the `view2_stats` container, `parse_faceitanalyser` returns
`none` (the function is total, so no exception is possible); and for
every well-formed page — both mandatory spans present with non-empty
stripped text, both view containers present — it returns a record with
non-empty `name` and `elo` and the two (possibly empty) stat-block
sequences. -/
theorem extraction_all_or_nothing :
    (∀ p : Page,
       p.nameSpan = none ∨ p.eloSpan = none ∨ p.view1 = none ∨ p.view2 = none →
       parse_faceitanalyser p = none) ∧
    (∀ p : Page, wellFormedPage p →
       ∃ ps, parse_faceitanalyser p = some ps ∧ ps.name ≠ "" ∧ ps.elo ≠ "") := by
  constructor
  · intro p h
    cases hn : p.nameSpan <;> cases he : p.eloSpan <;> cases h1 : p.view1 <;>
      cases h2 : p.view2 <;> simp_all [parse_faceitanalyser]
  · rintro p ⟨⟨ns, hns, hnse⟩, ⟨es, hes, hese⟩, hv1, hv2⟩
    obtain ⟨v1, hv1e⟩ := Option.isSome_iff_exists.mp hv1
    obtain ⟨v2, hv2e⟩ := Option.isSome_iff_exists.mp hv2
    refine ⟨⟨srcTruthy (p.avatarSrc.getD none),
             (levelSlot p.levelImageSrcs 0).map (faceitBase ++ ·),
             (levelSlot p.levelImageSrcs 1).map (faceitBase ++ ·),
             pyStrip ns, pyStrip es, parse_view_stats_div v1, parse_view_stats_div v2⟩,
           ?_, hnse, hese⟩
    simp [parse_faceitanalyser, hns, hes, hv1e, hv2e]

/-- Witness for C1: a page lacking the ELO span extracts to `none`; the
same page with the span extracts to a record with non-empty name and
elo. -/
theorem extraction_all_or_nothing_witness :
    parse_faceitanalyser { goodPage with eloSpan := none } = none ∧
    parse_faceitanalyser goodPage = some goodStats ∧
    goodStats.name ≠ "" ∧ goodStats.elo ≠ "" :=
  ⟨by decide, by decide, by decide, by decide⟩

/-- Claim C2: for every rendered stat block whose main value parses as
the rational `q`, the main value is drawn in the warning tint exactly
when the title is "Avg. KDR" or "FA Rating" and `q < 1`, or the title is
"Winrate" and `q < 50`, and in the positive tint otherwise; in
particular "Winrate"/"49" is warning, "Winrate"/"50" positive,
"FA Rating"/"0.99" warning, "FA Rating"/"1.00" positive. -/
theorem main_value_tint_rule :
    (∀ (t mv : String) (items : List StatItem) (q : ℚ), pyFloat mv = some q →
      draw_stat_table { title := some t, main_value := some mv, items := items } =
        Except.ok
          ([TableOp.background, TableOp.titleText t,
            TableOp.mainValue mv
              (if ((t = "Avg. KDR" ∨ t = "FA Rating") ∧ q < 1) ∨
                  (t = "Winrate" ∧ q < 50)
               then warningTint else positiveTint),
            TableOp.divider] ++
           items.map fun it => TableOp.itemRow it.title it.value)) ∧
    draw_stat_table { title := some "Winrate", main_value := some "49", items := [] } =
      Except.ok [TableOp.background, TableOp.titleText "Winrate",
        TableOp.mainValue "49" warningTint, TableOp.divider] ∧
    draw_stat_table { title := some "Winrate", main_value := some "50", items := [] } =
      Except.ok [TableOp.background, TableOp.titleText "Winrate",
        TableOp.mainValue "50" positiveTint, TableOp.divider] ∧
    draw_stat_table { title := some "FA Rating", main_value := some "0.99", items := [] } =
      Except.ok [TableOp.background, TableOp.titleText "FA Rating",
        TableOp.mainValue "0.99" warningTint, TableOp.divider] ∧
    draw_stat_table { title := some "FA Rating", main_value := some "1.00", items := [] } =
      Except.ok [TableOp.background, TableOp.titleText "FA Rating",
        TableOp.mainValue "1.00" positiveTint, TableOp.divider] := by
  refine ⟨tint_rule_general, by decide, by decide, ?_, ?_⟩
  · have h := tint_rule_general "FA Rating" "0.99" [] (99 / 100)
      (by simp [pyFloat, digitsVal, List.splitOn, List.splitOnP, List.splitOnP.go]
          norm_num)
    norm_num at h
    exact h
  · have h := tint_rule_general "FA Rating" "1.00" [] 1
      (by simp [pyFloat, digitsVal, List.splitOn, List.splitOnP, List.splitOnP.go])
    norm_num at h
    exact h

/-- Claim C9: for a stat block whose title is none of "Avg. KDR",
"FA Rating", "Winrate", the short-circuit `and` never reaches the
`float` call, so `draw_stat_table` succeeds with the positive tint for
every `main_value` string, numeric or not — the numeric-parse failure
path is reachable only for those three titles. -/
theorem nonthreshold_title_positive_tint (t mv : String) (items : List StatItem)
    (h1 : t ≠ "Avg. KDR") (h2 : t ≠ "FA Rating") (h3 : t ≠ "Winrate") :
    draw_stat_table { title := some t, main_value := some mv, items := items } =
      Except.ok
        ([TableOp.background, TableOp.titleText t,
          TableOp.mainValue mv positiveTint, TableOp.divider] ++
         items.map fun it => TableOp.itemRow it.title it.value) := by
  simp [draw_stat_table, pyAndFloatLt, beq_iff_eq, h1, h2, h3]

/-- Witness for C9: the non-numeric main value "N/A" under the title
"Matches" renders without error, in the positive tint. -/
theorem nonthreshold_title_positive_tint_witness :
    draw_stat_table { title := some "Matches", main_value := some "N/A", items := [] } =
      Except.ok [TableOp.background, TableOp.titleText "Matches",
        TableOp.mainValue "N/A" positiveTint, TableOp.divider] :=
  nonthreshold_title_positive_tint "Matches" "N/A" []
    (by decide) (by decide) (by decide)

/-- Claim C7: extraction pairs item titles with item values positionally
and truncates to the shorter list (zip semantics), and the renderer
draws exactly one row per item — so a block parsed from `N_titles`
titles and `N_values` values carries, and renders as, exactly
`min N_titles N_values` item rows. -/
theorem zip_truncation_min_rows :
    (∀ bd : BlockDiv,
      (parse_block bd).items.length =
        min bd.itemTitles.length bd.itemValues.length) ∧
    (∀ (b : StatBlock) (ops : List TableOp), draw_stat_table b = Except.ok ops →
      ops.countP TableOp.isItemRow = b.items.length) ∧
    (∀ (bd : BlockDiv) (ops : List TableOp),
      draw_stat_table (parse_block bd) = Except.ok ops →
      ops.countP TableOp.isItemRow =
        min bd.itemTitles.length bd.itemValues.length) := by
  have hlen : ∀ bd : BlockDiv,
      (parse_block bd).items.length =
        min bd.itemTitles.length bd.itemValues.length := by
    intro bd
    simp [parse_block, List.length_zip]
  have hrows : ∀ (b : StatBlock) (ops : List TableOp),
      draw_stat_table b = Except.ok ops →
      ops.countP TableOp.isItemRow = b.items.length := by
    intro b ops h
    obtain ⟨t, mv, fill, rfl⟩ := draw_ok_shape b ops h
    simp [List.countP_append, List.countP_cons, List.countP_map,
      TableOp.isItemRow, Function.comp, List.countP_true]
  exact ⟨hlen, hrows, fun bd ops h => (hrows _ ops h).trans (hlen bd)⟩

/-- Witness for C7: three item titles zipped with two item values keep
two pairs, and the rendered table shows exactly two item rows. -/
theorem zip_truncation_min_rows_witness :
    (parse_block bdEx).items.length = 2 ∧
    (draw_stat_table (parse_block bdEx)).map
      (fun ops => ops.countP TableOp.isItemRow) = Except.ok 2 :=
  ⟨by decide, by decide⟩

/-- Claim C3 (amended): for every `PlayerStats` record in which the
three auxiliary image URL keys are present (and whose stat blocks
render), each of the three image loads that fails is substituted
per-image with its fixed-tint placeholder — gray at (50, 50) for the
avatar, red-tinted at (220, 55) for the flag, green-tinted at (220, 110)
for the level — and the renderer still produces a complete 1600×820
card; in particular with all three URLs unreachable all three
placeholders appear.  (The unamended claim, quantified over records with
*absent* URL keys, fails: see the counterexample.) -/
theorem card_placeholder_on_failed_loads :
    ∀ (loader : String → Option Img) (d : PlayerStats) (au fu lu : String),
      d.avatar_url = some au → d.flag_url = some fu → d.level_url = some lu →
      (∀ b ∈ d.view1_stats, rendersOk b) → (∀ b ∈ d.view2_stats, rendersOk b) →
      ∃ card, generate_player_card loader d = Except.ok card ∧
        card.width = 1600 ∧ card.height = 820 ∧
        (loader au = none →
          CardOp.paste 50 50 150 150
            (PasteSrc.placeholder (100, 100, 100, 255)) ∈ card.ops) ∧
        (loader fu = none →
          CardOp.paste 220 55 60 45
            (PasteSrc.placeholder (200, 100, 100, 255)) ∈ card.ops) ∧
        (loader lu = none →
          CardOp.paste 220 110 45 45
            (PasteSrc.placeholder (100, 200, 100, 255)) ∈ card.ops) := by
  intro loader d au fu lu hau hfu hlu hv1 hv2
  obtain ⟨t1, ht1⟩ := renderTablesFrom_ok 315 d.view1_stats hv1 0
  obtain ⟨t2, ht2⟩ := renderTablesFrom_ok 590 d.view2_stats hv2 0
  refine ⟨⟨1600, 820,
    [avatarOp loader au, flagOp loader fu, levelOp loader lu,
     CardOp.text 295 55 d.name, CardOp.text 295 120 d.elo,
     CardOp.line 40 230 1560 230,
     CardOp.text 50 260 "Статистика за всё время"] ++ t1 ++
    [CardOp.text 50 535 "Статистика за последние 50 матчей"] ++ t2⟩,
    ?_, rfl, rfl, ?_, ?_, ?_⟩
  · simp [generate_player_card, cardBody, hau, hfu, hlu, ht1, ht2]
  · intro h; simp [avatarOp, h]
  · intro h; simp [flagOp, h]
  · intro h; simp [levelOp, h]

/-- Witness for C3: with every URL unreachable, the card of `cardData`
is still produced, 1600×820, with the three placeholders. -/
theorem card_placeholder_witness :
    ∃ card, generate_player_card (fun _ => none) cardData = Except.ok card ∧
      card.width = 1600 ∧ card.height = 820 ∧
      CardOp.paste 50 50 150 150
        (PasteSrc.placeholder (100, 100, 100, 255)) ∈ card.ops ∧
      CardOp.paste 220 55 60 45
        (PasteSrc.placeholder (200, 100, 100, 255)) ∈ card.ops ∧
      CardOp.paste 220 110 45 45
        (PasteSrc.placeholder (100, 200, 100, 255)) ∈ card.ops := by
  obtain ⟨card, h1, h2, h3, h4, h5, h6⟩ :=
    card_placeholder_on_failed_loads (fun _ => none) cardData "a" "f" "l"
      rfl rfl rfl (by simp [cardData]) (by simp [cardData])
  exact ⟨card, h1, h2, h3, h4 rfl, h5 rfl, h6 rfl⟩

/-- Counterexample for C3 as stated: a record whose optional
`avatar_url` key is absent makes `generate_player_card` fail (the
`KeyError` of `data['avatar_url']` is not an `ImageLoadError`, so it
escapes to the generic handler and is re-raised) — so a missing optional
image URL does abort card generation. -/
theorem card_missing_url_key_raises :
    generate_player_card (fun _ => none) cardDataNoAvatar =
      Except.error (PyErr.renderFailure (PyErr.keyError "avatar_url")) := by decide

/-- Claim C4: `download_page` makes exactly one HTTP attempt per call
(no retries) and fails whenever that attempt errors, times out or
returns a non-success status — but it fails with
`TypeError("exceptions must derive from BaseException")`, because the
source raises a plain f-string and no `FetchError` class exists in the
repository; on a success status it returns the response text. -/
theorem download_page_one_attempt :
    ∀ http : ℕ → HttpAttempt,
      (download_page http).2 = 1 ∧
      (∀ t, http 0 = HttpAttempt.success t → (download_page http).1 = Except.ok t) ∧
      (http 0 = HttpAttempt.failure →
        (download_page http).1 = Except.error PyErr.typeError) := by
  intro http
  cases hh : http 0 <;> simp_all [download_page]

/-- Claim C5: `register_user` writes a row only if the nickname first
resolves — an unresolved nickname leaves the table unchanged and reports
the not-found outcome (`None`); and registering resolvable nicknames
twice for one user id (on a table where that id is a proper primary
key) leaves exactly one row for that id, carrying the nickname and
timestamp of the latest call. -/
theorem register_user_gating_upsert :
    (∀ (resolve : String → Except PyErr (Option PlayerStats)) (now : ℕ)
       (db : Db) (tid : ℤ) (nick : String),
       resolve nick = Except.ok none →
       register_user resolve now db tid nick = (Except.ok none, db)) ∧
    (∀ (resolve : String → Except PyErr (Option PlayerStats)) (now1 now2 : ℕ)
       (db : Db) (tid : ℤ) (n1 n2 : String) (s1 s2 : PlayerStats),
       resolve n1 = Except.ok (some s1) → resolve n2 = Except.ok (some s2) →
       db.countP (fun r => r.telegram_id == tid) ≤ 1 →
       ((register_user resolve now2
           (register_user resolve now1 db tid n1).2 tid n2).2).countP
         (fun r => r.telegram_id == tid) = 1 ∧
       ∀ r ∈ (register_user resolve now2
                (register_user resolve now1 db tid n1).2 tid n2).2,
         r.telegram_id = tid → r.faceit_nickname = n2 ∧ r.registered_at = now2) := by
  constructor
  · intro resolve now db tid nick h
    simp [register_user, h]
  · intro resolve now1 now2 db tid n1 n2 s1 s2 h1 h2 hpk
    have hc1 := register_user_countP resolve now1 db tid n1 s1 h1 hpk
    exact ⟨register_user_countP resolve now2 _ tid n2 s2 h2 (le_of_eq hc1),
           register_user_latest resolve now2 _ tid n2 s2 h2⟩

/-- Witness for C5: the nickname "ghost" does not resolve and leaves the
empty table empty; registering user 42 twice ends with the single row of
the second call. -/
theorem register_user_gating_upsert_witness :
    register_user resolveEx 3 [] 42 "ghost" = (Except.ok none, ([] : Db)) ∧
    (register_user resolveEx 9
        (register_user resolveEx 3 [] 42 "n1").2 42 "n2").2 =
      [{ telegram_id := 42, faceit_nickname := "n2", registered_at := 9 }] :=
  ⟨by decide, by decide⟩

/-- Claim C6: `get_faceit_nickname_from_db` never raises — every storage
error, an unreachable store included, is caught and reported as absence;
an unknown user id yields absence; and the connection count closed
equals the count opened on every path (the `finally:` always releases an
opened connection). -/
theorem lookup_nickname_soft_fail :
    ∀ (store : Store) (tid : ℤ),
      (∃ r, (get_faceit_nickname_from_db store tid).returns = Except.ok r) ∧
      (get_faceit_nickname_from_db store tid).closed =
        (get_faceit_nickname_from_db store tid).opened ∧
      (∀ db, store = Store.ready db → (∀ row ∈ db, row.telegram_id ≠ tid) →
        (get_faceit_nickname_from_db store tid).returns = Except.ok none) ∧
      ((store = Store.unreachable ∨ store = Store.failing) →
        (get_faceit_nickname_from_db store tid).returns = Except.ok none) := by
  intro store tid
  cases store with
  | unreachable => exact ⟨⟨none, rfl⟩, rfl, by simp, fun _ => rfl⟩
  | failing => exact ⟨⟨none, rfl⟩, rfl, by simp, fun _ => rfl⟩
  | ready db =>
    refine ⟨⟨(selectByTid db tid).map Row.faceit_nickname, rfl⟩, rfl, ?_, by simp⟩
    rintro db2 heq hnone
    injection heq with heq
    subst heq
    have hf : selectByTid db tid = none :=
      List.find?_eq_none.mpr fun r hr => by simpa using hnone r hr
    simp [get_faceit_nickname_from_db, hf]

/-- Witness for C6: an unreachable store and a failing store both report
absence; a ready store serves a present key and reports absence for an
unknown one. -/
theorem lookup_nickname_soft_fail_witness :
    (get_faceit_nickname_from_db Store.unreachable 5).returns = Except.ok none ∧
    (get_faceit_nickname_from_db Store.failing 5).returns = Except.ok none ∧
    (get_faceit_nickname_from_db (Store.ready [⟨5, "abc", 0⟩]) 5).returns =
      Except.ok (some "abc") ∧
    (get_faceit_nickname_from_db (Store.ready [⟨5, "abc", 0⟩]) 6).returns =
      Except.ok none :=
  ⟨rfl, rfl, by decide, by decide⟩

/-- Claim C8 (amended): of the level-image elements, the first
encountered is recorded as the flag image and the second as the
rank/level image, and the site's base origin is prepended to each
recorded URL unconditionally — also when the URL is already absolute.
(The unamended "prepended if relative, absolute left unchanged" fails:
see the counterexample.) -/
theorem level_images_order_and_prefix :
    ∀ (p : Page) (ps : PlayerStats), parse_faceitanalyser p = some ps →
      (∀ s, p.levelImageSrcs[0]? = some (some s) → s ≠ "" →
        ps.flag_url = some (faceitBase ++ s)) ∧
      (∀ s, p.levelImageSrcs[1]? = some (some s) → s ≠ "" →
        ps.level_url = some (faceitBase ++ s)) := by
  intro p ps h
  cases hn : p.nameSpan with
  | none => simp [parse_faceitanalyser, hn] at h
  | some ns =>
  cases he : p.eloSpan with
  | none => simp [parse_faceitanalyser, hn, he] at h
  | some es =>
  cases h1 : p.view1 with
  | none => simp [parse_faceitanalyser, hn, he, h1] at h
  | some v1 =>
  cases h2 : p.view2 with
  | none => simp [parse_faceitanalyser, hn, he, h1, h2] at h
  | some v2 =>
  simp only [parse_faceitanalyser, hn, he, h1, h2, Option.some.injEq] at h
  subst h
  constructor
  · intro s h0 hs
    rcases hsrcs : p.levelImageSrcs with _ | ⟨o, rest⟩ <;> rw [hsrcs] at h0 <;>
      simp at h0
    simp [levelSlot, hsrcs, h0, srcTruthy, hs]
  · intro s hone hs
    rcases hsrcs : p.levelImageSrcs with _ | ⟨o, rest⟩ <;> rw [hsrcs] at hone <;>
      simp at hone
    rcases rest with _ | ⟨o2, rest2⟩ <;> simp at hone
    simp [levelSlot, hsrcs, hone, srcTruthy, hs]

/-- Witness for C8: on `pageAbs` the first level image becomes the flag
URL and the second the level URL, each with the base origin prepended. -/
theorem level_images_witness :
    psAbs.flag_url = some (faceitBase ++ "https://cdn.example.com/fl.svg") ∧
    psAbs.level_url = some (faceitBase ++ "lvl.png") := by
  have h := level_images_order_and_prefix pageAbs psAbs (by decide)
  exact ⟨h.1 _ (by decide) (by decide), h.2 _ (by decide) (by decide)⟩

/-- Counterexample for C8 as stated: the already-absolute flag URL of
`pageAbs` is not left unchanged — the base origin is prepended to it
too. -/
theorem absolute_url_still_prefixed :
    parse_faceitanalyser pageAbs = some psAbs ∧
    psAbs.flag_url ≠ some "https://cdn.example.com/fl.svg" ∧
    psAbs.flag_url =
      some ("https://faceitanalyser.com/" ++ "https://cdn.example.com/fl.svg") :=
  ⟨by decide, by decide, by decide⟩

/-- Claim C10: when the submitted nickname fails to resolve, the
handler leaves the registration map untouched, so the user id stays in
the waiting state and its next private message is again treated as a
nickname submission; on success the entry is set to non-waiting; in
every returning case the entry is never removed from the map. -/
theorem registration_waiting_flag :
    ∀ (resolve : String → Except PyErr (Option PlayerStats)) (now : ℕ) (db : Db)
      (m : RegMap) (uid : ℤ) (text : String),
      m uid = some true →
      (resolve (pyStrip text) = Except.ok none →
        handle_registration_input resolve now db m uid text = Except.ok (m, db) ∧
        awaiting_login m uid = true) ∧
      (∀ s, resolve (pyStrip text) = Except.ok (some s) →
        ∃ m2 db2,
          handle_registration_input resolve now db m uid text = Except.ok (m2, db2) ∧
          m2 uid = some false) ∧
      (∀ m2 db2,
        handle_registration_input resolve now db m uid text = Except.ok (m2, db2) →
        m2 uid ≠ none) := by
  intro resolve now db m uid text hm
  refine ⟨?_, ?_, ?_⟩
  · intro hres
    constructor
    · simp [handle_registration_input, register_user, hres]
    · simp [awaiting_login, hm]
  · intro s hres
    refine ⟨fun u => if u = uid then some false else m u,
            (register_user resolve now db uid (pyStrip text)).2, ?_, by simp⟩
    have hfst : (register_user resolve now db uid (pyStrip text)).1 =
        Except.ok (some s) := by
      unfold register_user
      rw [hres]
      cases selectByTid db uid <;> rfl
    simp only [handle_registration_input]
    rcases hru : register_user resolve now db uid (pyStrip text) with ⟨res, db3⟩
    rw [hru] at hfst
    simp only at hfst
    subst hfst
    rfl
  · intro m2 db2 hh
    simp only [handle_registration_input] at hh
    rcases hru : register_user resolve now db uid (pyStrip text) with ⟨res, db3⟩
    rw [hru] at hh
    match res with
    | Except.error e => simp at hh
    | Except.ok none =>
      simp only [Except.ok.injEq, Prod.mk.injEq] at hh
      rw [← hh.1, hm]
      simp
    | Except.ok (some s) =>
      simp only [Except.ok.injEq, Prod.mk.injEq] at hh
      rw [← hh.1]
      simp

/-- Witness for C10: a failed resolution leaves user 7 in the map, still
waiting, and the handler still treats them as registering. -/
theorem registration_waiting_flag_witness :
    handle_registration_input (fun _ => Except.ok none) 0 [] mWait 7 "ghost" =
      Except.ok (mWait, []) ∧
    awaiting_login mWait 7 = true :=
  (registration_waiting_flag (fun _ => Except.ok none) 0 [] mWait 7 "ghost"
    (by simp [mWait])).1 rfl

end FaceitBot
